import Mathlib

/-!
Shallow embedding of the `zerg` HTTP load generator (src/src/result.rs,
src/src/lib.rs, src/src/uri.rs) and proofs of the specification claims.

Modelling conventions:
* `std::time::Duration` is modelled as a `Nat` counting nanoseconds.
  `Duration::MAX` is `u64::MAX` seconds plus `999_999_999` nanoseconds.
  Rust's `Duration` type guarantees every value is at most `durationMax`;
  where a proof needs that type invariant it appears as a hypothesis.
* `usize` counters are modelled as `Nat` (the code only ever increments
  and adds them; no subtraction or wrap-around occurs).
* `f64` arithmetic in `requests_per_second` is modelled by exact rational
  arithmetic over `ℚ`.
* `Vec<Duration>` is a `List Nat`; `Vec::push` appends on the right and
  `Vec::append` / `concat` is list append.
-/

namespace Zerg

/-- `Duration::MAX` in nanoseconds: `u64::MAX` seconds + 999 999 999 ns. -/
def durationMax : Nat := 18446744073709551615 * 1000000000 + 999999999

/-- The result record of `src/src/result.rs` (`struct BenchmarkResult`).
Durations are nanosecond counts. -/
structure BenchmarkResult where
  success : Nat
  http_error : Nat
  tcp_error : Nat
  elapsed : Nat
  min_time : Nat
  max_time : Nat
  timings : List Nat
deriving Repr, DecidableEq

/-- `impl Default for BenchmarkResult` (result.rs lines 66-78):
zero counters, `elapsed = 0`, `min_time = Duration::MAX`,
`max_time = 0`, empty timings (the `Vec` capacity hint has no
observable effect on the contents). -/
def BenchmarkResult.default : BenchmarkResult :=
  { success := 0
    http_error := 0
    tcp_error := 0
    elapsed := 0
    min_time := durationMax
    max_time := 0
    timings := [] }

/-- `BenchmarkResult::total_request_count` (result.rs lines 22-24):
`self.success + self.http_error`. -/
def BenchmarkResult.total_request_count (r : BenchmarkResult) : Nat :=
  r.success + r.http_error

/-- `impl AddAssign<BenchmarkResult> for BenchmarkResult`
(result.rs lines 129-143), as the pure function underlying
`impl Add` (result.rs lines 145-152): counters and elapsed add,
`min_time` is lowered when the right side is smaller, `max_time`
is raised when the right side is larger, and the right side's
timings are appended onto the left side's. -/
def BenchmarkResult.add (self rhs : BenchmarkResult) : BenchmarkResult :=
  { success := self.success + rhs.success
    http_error := self.http_error + rhs.http_error
    tcp_error := self.tcp_error + rhs.tcp_error
    elapsed := self.elapsed + rhs.elapsed
    min_time := if rhs.min_time < self.min_time then rhs.min_time else self.min_time
    max_time := if self.max_time < rhs.max_time then rhs.max_time else self.max_time
    timings := self.timings ++ rhs.timings }

/-- The per-step combine of `impl Sum<BenchmarkResult> for BenchmarkResult`
(result.rs lines 113-127): field-by-field construction with
`Duration::min` / `Duration::max` and `[a, b].concat()`. -/
def BenchmarkResult.sumCombine (total result : BenchmarkResult) : BenchmarkResult :=
  { success := total.success + result.success
    http_error := total.http_error + result.http_error
    tcp_error := total.tcp_error + result.tcp_error
    elapsed := total.elapsed + result.elapsed
    min_time := min total.min_time result.min_time
    max_time := max total.max_time result.max_time
    timings := total.timings ++ result.timings }

/-- `impl Sum<BenchmarkResult>` (result.rs lines 113-127):
`iter.fold(BenchmarkResult::default(), ...)` with `sumCombine`. -/
def BenchmarkResult.sum (l : List BenchmarkResult) : BenchmarkResult :=
  l.foldl BenchmarkResult.sumCombine BenchmarkResult.default

/-- Equality of two results on every field except that the `timings`
sequences are only required to be equal as multisets. -/
def BenchmarkResult.equivUpToTimingOrder (x y : BenchmarkResult) : Prop :=
  x.success = y.success ∧ x.http_error = y.http_error ∧
  x.tcp_error = y.tcp_error ∧ x.elapsed = y.elapsed ∧
  x.min_time = y.min_time ∧ x.max_time = y.max_time ∧
  (x.timings : Multiset Nat) = (y.timings : Multiset Nat)

/-- `len(timings) == success + http_error + tcp_error`: the attempt-count
invariant of the spec. -/
def BenchmarkResult.attemptsInvariant (r : BenchmarkResult) : Prop :=
  r.timings.length = r.success + r.http_error + r.tcp_error

instance (r : BenchmarkResult) : Decidable r.attemptsInvariant := by
  unfold BenchmarkResult.attemptsInvariant; infer_instance

/-- Outcome of one request attempt in the worker loop
(lib.rs lines 92-101): transport ok and matcher true, transport ok and
matcher false, or transport error. -/
inductive AttemptOutcome where
  | success
  | httpError
  | tcpError
deriving Repr, DecidableEq

/-- One iteration of the worker-loop body (lib.rs lines 89-107):
exactly one counter is incremented according to the attempt's outcome,
then the attempt's elapsed time overwrites `result.elapsed`, is pushed
onto `timings`, and updates the `min_time` / `max_time` extrema. -/
def workerStep (result : BenchmarkResult) (outcome : AttemptOutcome)
    (elapsed : Nat) : BenchmarkResult :=
  let r :=
    match outcome with
    | .success => { result with success := result.success + 1 }
    | .httpError => { result with http_error := result.http_error + 1 }
    | .tcpError => { result with tcp_error := result.tcp_error + 1 }
  { r with
    elapsed := elapsed
    timings := r.timings ++ [elapsed]
    min_time := min r.min_time elapsed
    max_time := max r.max_time elapsed }

/-- The whole worker loop (lib.rs lines 87-109) over a finite schedule of
attempts: start from `BenchmarkResult::default()` and run one
`workerStep` per attempt. -/
def workerLoop (attempts : List (AttemptOutcome × Nat)) : BenchmarkResult :=
  attempts.foldl (fun r a => workerStep r a.1 a.2) BenchmarkResult.default

/-- End of `Swarm::zerg` (lib.rs lines 126-135): the successfully joined
per-context results are merged with the `Sum` implementation and then the
merged `elapsed` field is overwritten with the driver's wall-clock
measurement. -/
def driverFinalize (joined : List BenchmarkResult) (wallClock : Nat) :
    BenchmarkResult :=
  let results := BenchmarkResult.sum joined
  { results with elapsed := wallClock }

/-- `Duration::as_millis` on a nanosecond count: truncating division. -/
def BenchmarkResult.elapsedMillis (r : BenchmarkResult) : Nat :=
  r.elapsed / 1000000

/-- `BenchmarkResult::requests_per_second` (result.rs lines 26-28):
`(total_request_count as f64 / elapsed.as_millis() as f64) * 1000.0`,
with the `f64` arithmetic modelled by exact rational arithmetic. -/
def BenchmarkResult.requests_per_second (r : BenchmarkResult) : ℚ :=
  ((r.total_request_count : ℚ) / (r.elapsedMillis : ℚ)) * 1000

/-- The elapsed time in seconds as the reporting layer computes it
(result.rs line 82: `elapsed.as_millis() as f64 / 1000.0`). -/
def BenchmarkResult.elapsedSeconds (r : BenchmarkResult) : ℚ :=
  (r.elapsedMillis : ℚ) / 1000

/-- An HTTP response, reduced to the only observation the code makes of
it: its status code (`res.status()`). -/
structure Response where
  status : Nat
deriving Repr, DecidableEq

/-- `http::StatusCode::is_success` from the `http` crate used by `hyper`
(an external collaborator of src/): documented and implemented as
"between 200 and 299", i.e. the 2xx class only. -/
def StatusCode.is_success (s : Nat) : Bool :=
  decide (200 ≤ s) && decide (s < 300)

/-- A target URI, kept abstract: the code only threads it through. -/
structure Uri where
  raw : String
deriving Repr, DecidableEq

/-- An HTTP request, reduced to what the default factory sets
(lib.rs lines 155-161): the target URI and the GET method. -/
structure Request where
  uri : Uri
  method : String

/-- `struct Swarm` (lib.rs lines 37-44). -/
structure Swarm where
  uri : Uri
  duration : Nat
  threads : Nat
  concurrency : Nat
  make_request : Uri → Request
  expectation_matcher : Response → Bool

/-- `struct SwarmBuilder` (lib.rs lines 139-146): like `Swarm` but the
URI is the outcome of the `TryFrom` parse, an error until a valid URI is
supplied. -/
structure SwarmBuilder where
  uri : Except String Uri
  duration : Nat
  threads : Nat
  concurrency : Nat
  make_request : Uri → Request
  expectation_matcher : Response → Bool

/-- `impl Default for SwarmBuilder` (lib.rs lines 148-165): missing-uri
error, 1 second duration, 1 thread, concurrency 100, GET factory, and
the `is_success` classifier. -/
def SwarmBuilder.default : SwarmBuilder :=
  { uri := Except.error "missing uri"
    duration := 1000000000
    threads := 1
    concurrency := 100
    make_request := fun u => { uri := u, method := "GET" }
    expectation_matcher := fun res => StatusCode.is_success res.status }

/-- `SwarmBuilder::uri` (lib.rs lines 168-177): stores the outcome of
`Uri::try_from` on the caller's input (the parse itself is the external
`hyper::Uri` parser; its outcome is the parameter). -/
def SwarmBuilder.uriSet (b : SwarmBuilder) (parsed : Except String Uri) :
    SwarmBuilder :=
  { b with uri := parsed }

/-- `SwarmBuilder::build` (lib.rs lines 208-217): `self.uri?` propagates
a parse failure; otherwise all configuration moves into the `Swarm`. -/
def SwarmBuilder.build (b : SwarmBuilder) : Except String Swarm :=
  match b.uri with
  | .error e => .error e
  | .ok u =>
      .ok { uri := u
            duration := b.duration
            threads := b.threads
            concurrency := b.concurrency
            make_request := b.make_request
            expectation_matcher := b.expectation_matcher }

/-- `SwarmBuilder::zerg` (lib.rs lines 219-221):
`self.build().map(|swarm| swarm.zerg())`. The benchmark run itself is
nondeterministic (network), so it is abstracted as the `run` parameter;
only the error propagation is the code under proof. -/
def SwarmBuilder.zergWith (b : SwarmBuilder)
    (run : Swarm → BenchmarkResult) : Except String BenchmarkResult :=
  b.build.map run

/-- Classification of one transport outcome by the worker loop
(lib.rs lines 92-101): a response is matched against the classifier,
a transport failure counts as a tcp error. -/
def classify (matcher : Response → Bool) : Option Response → AttemptOutcome
  | some res => if matcher res then .success else .httpError
  | none => .tcpError

/-- Observable milestones of `Swarm::zerg` (lib.rs lines 51-135), in
program order. -/
inductive DriverEvent where
  | resolveHost
  | spawnContext (i : Nat)
  | startSignal
  | sleepRun
  | stopSignal
  | joinMerge
deriving Repr, DecidableEq

/-- Straight-line event order of `Swarm::zerg` (lib.rs lines 51-135):
the authority is resolved once (lines 54-55), then one OS thread per
execution context is spawned (lines 61-118), then the run flag is set,
the driver sleeps for the configured duration, the flag is cleared, and
the joined results are merged (lines 120-135). -/
def Swarm.zergEvents (s : Swarm) : List DriverEvent :=
  [DriverEvent.resolveHost] ++
    (List.range s.threads).map DriverEvent.spawnContext ++
    [DriverEvent.startSignal, DriverEvent.sleepRun,
     DriverEvent.stopSignal, DriverEvent.joinMerge]

/-- `Duration::as_secs_f64` on a nanosecond count, as an exact rational. -/
def durationToSecs (d : Nat) : ℚ :=
  (d : ℚ) / 1000000000

/-- Modelled from the spec: the streaming quantile sketch behind
`BenchmarkResult::percentiles` is the external `tdigest` crate
(`TDigest::new_with_size(100)`, `merge_unsorted`, `estimate_quantile`),
whose implementation is not part of src/. Spec section 4.4 specifies a
bounded sketch built by merging all timing samples in one pass whose
quantile queries are monotone in `q`; it leaves the exact algorithm an
implementation freedom. We model it as the exact empirical quantile:
the samples sorted ascending, indexed at `floor(q * n)` clamped to the
last element. -/
def estimate_quantile (samples : List ℚ) (q : ℚ) : ℚ :=
  let sorted := samples.insertionSort (· ≤ ·)
  sorted.getD (min (Int.floor (q * sorted.length)).toNat (sorted.length - 1)) 0

/-- `BenchmarkResult::percentiles` followed by `Percentiles::percentile`
(result.rs lines 50-64): the timings are converted to seconds, ingested
into the sketch, and queried at `q`; the answer is returned in seconds
(the code's round-trip through `Duration::from_secs_f64` is the identity
on the value in this exact-arithmetic model). -/
def BenchmarkResult.percentile (r : BenchmarkResult) (q : ℚ) : ℚ :=
  estimate_quantile (r.timings.map durationToSecs) q

/-! Helper lemmas. -/

lemma BenchmarkResult.ext_fields {x y : BenchmarkResult}
    (h1 : x.success = y.success) (h2 : x.http_error = y.http_error)
    (h3 : x.tcp_error = y.tcp_error) (h4 : x.elapsed = y.elapsed)
    (h5 : x.min_time = y.min_time) (h6 : x.max_time = y.max_time)
    (h7 : x.timings = y.timings) : x = y := by
  cases x; cases y; simp_all

lemma add_min_time (a b : BenchmarkResult) :
    (a.add b).min_time = min a.min_time b.min_time := by
  simp only [BenchmarkResult.add]
  split <;> omega

lemma add_max_time (a b : BenchmarkResult) :
    (a.add b).max_time = max a.max_time b.max_time := by
  simp only [BenchmarkResult.add]
  split <;> omega

lemma add_success (a b : BenchmarkResult) :
    (a.add b).success = a.success + b.success := rfl

lemma add_http_error (a b : BenchmarkResult) :
    (a.add b).http_error = a.http_error + b.http_error := rfl

lemma add_tcp_error (a b : BenchmarkResult) :
    (a.add b).tcp_error = a.tcp_error + b.tcp_error := rfl

lemma add_elapsed (a b : BenchmarkResult) :
    (a.add b).elapsed = a.elapsed + b.elapsed := rfl

lemma add_timings (a b : BenchmarkResult) :
    (a.add b).timings = a.timings ++ b.timings := rfl

lemma sumCombine_eq_add :
    BenchmarkResult.sumCombine = BenchmarkResult.add := by
  funext a b
  apply BenchmarkResult.ext_fields <;>
    simp only [BenchmarkResult.sumCombine, BenchmarkResult.add] <;>
    first
      | rfl
      | (split <;> omega)

/-! Theorems for the claims. -/

/-- Claim C1: the merge of `BenchmarkResult` values (the `Sum`/`Add`
combine) is associative and commutative: grouping does not matter at all
(structural equality, timings included), and order matters only for the
order of the `timings` sequence: swapping operands or exchanging the last
two operands of a three-way merge preserves every count, `elapsed`,
`min_time`, `max_time`, and the timings as a multiset. -/
theorem merge_assoc_comm (a b c : BenchmarkResult) :
    (a.add b).add c = a.add (b.add c) ∧
    (a.add b).equivUpToTimingOrder (b.add a) ∧
    ((a.add b).add c).equivUpToTimingOrder ((a.add c).add b) := by
  refine ⟨?_, ?_, ?_⟩
  · apply BenchmarkResult.ext_fields <;>
      simp [add_success, add_http_error, add_tcp_error, add_elapsed,
        add_min_time, add_max_time, add_timings, Nat.add_assoc,
        min_assoc, max_assoc]
  · unfold BenchmarkResult.equivUpToTimingOrder
    refine ⟨?_, ?_, ?_, ?_, ?_, ?_, ?_⟩
    · simp only [add_success]; omega
    · simp only [add_http_error]; omega
    · simp only [add_tcp_error]; omega
    · simp only [add_elapsed]; omega
    · rw [add_min_time, add_min_time, min_comm]
    · rw [add_max_time, add_max_time, max_comm]
    · rw [add_timings, add_timings]
      exact Multiset.coe_eq_coe.mpr List.perm_append_comm
  · unfold BenchmarkResult.equivUpToTimingOrder
    refine ⟨?_, ?_, ?_, ?_, ?_, ?_, ?_⟩
    · simp only [add_success]; omega
    · simp only [add_http_error]; omega
    · simp only [add_tcp_error]; omega
    · simp only [add_elapsed]; omega
    · rw [add_min_time, add_min_time, add_min_time, add_min_time,
        min_assoc, min_assoc, min_comm b.min_time c.min_time]
    · rw [add_max_time, add_max_time, add_max_time, add_max_time,
        max_assoc, max_assoc, max_comm b.max_time c.max_time]
    · rw [add_timings, add_timings, add_timings, add_timings]
      refine Multiset.coe_eq_coe.mpr ?_
      rw [List.append_assoc, List.append_assoc]
      exact List.Perm.append_left _ List.perm_append_comm

/-- Claim C2: the default `BenchmarkResult` is a two-sided identity for
merge: structural equality on every field, timings as the same sequence.
The `min_time ≤ durationMax` hypothesis is the `Duration` type invariant
(every Rust `Duration` is at most `Duration::MAX`). -/
theorem merge_identity (r : BenchmarkResult)
    (h : r.min_time ≤ durationMax) :
    r.add BenchmarkResult.default = r ∧
    BenchmarkResult.default.add r = r := by
  constructor <;>
    apply BenchmarkResult.ext_fields <;>
      simp only [BenchmarkResult.add, BenchmarkResult.default] <;>
      first
        | omega
        | (split <;> omega)
        | simp

/-- Witness for Claim C2 at a concrete result. -/
theorem merge_identity_witness :
    ({ success := 1, http_error := 2, tcp_error := 3, elapsed := 4,
       min_time := 5, max_time := 6,
       timings := [7, 8, 9, 10, 11, 12] } : BenchmarkResult).min_time ≤
      durationMax ∧
    (({ success := 1, http_error := 2, tcp_error := 3, elapsed := 4,
        min_time := 5, max_time := 6,
        timings := [7, 8, 9, 10, 11, 12] } : BenchmarkResult).add
        BenchmarkResult.default =
      { success := 1, http_error := 2, tcp_error := 3, elapsed := 4,
        min_time := 5, max_time := 6,
        timings := [7, 8, 9, 10, 11, 12] } ∧
     BenchmarkResult.default.add
        { success := 1, http_error := 2, tcp_error := 3, elapsed := 4,
          min_time := 5, max_time := 6,
          timings := [7, 8, 9, 10, 11, 12] } =
      { success := 1, http_error := 2, tcp_error := 3, elapsed := 4,
        min_time := 5, max_time := 6,
        timings := [7, 8, 9, 10, 11, 12] }) :=
  ⟨by decide,
   merge_identity
     { success := 1, http_error := 2, tcp_error := 3, elapsed := 4,
       min_time := 5, max_time := 6, timings := [7, 8, 9, 10, 11, 12] }
     (by decide)⟩

/-- Claim C10: the `Sum` implementation's own field-by-field combine,
folded from the default, agrees with folding `Add`/`AddAssign` from the
default, on every field including the order of the concatenated timings:
the two merge implementations are the same function. -/
theorem sum_eq_foldl_add (l : List BenchmarkResult) :
    BenchmarkResult.sum l =
      l.foldl BenchmarkResult.add BenchmarkResult.default := by
  unfold BenchmarkResult.sum
  rw [sumCombine_eq_add]

lemma attemptsInvariant_sumCombine {a b : BenchmarkResult}
    (ha : a.attemptsInvariant) (hb : b.attemptsInvariant) :
    (a.sumCombine b).attemptsInvariant := by
  simp only [BenchmarkResult.attemptsInvariant, BenchmarkResult.sumCombine,
    List.length_append] at *
  omega

lemma attemptsInvariant_foldl :
    ∀ (l : List BenchmarkResult) (acc : BenchmarkResult),
      acc.attemptsInvariant → (∀ r ∈ l, r.attemptsInvariant) →
      (l.foldl BenchmarkResult.sumCombine acc).attemptsInvariant
  | [], _, hacc, _ => hacc
  | x :: xs, acc, hacc, hl => by
      apply attemptsInvariant_foldl xs
      · exact attemptsInvariant_sumCombine hacc (hl x (by simp))
      · intro r hr
        exact hl r (by simp [hr])

/-- Claim C3: `len(timings) = success + http_error + tcp_error` is an
invariant: the default result satisfies it, every worker-loop iteration
preserves it (one attempt increments exactly one counter and pushes
exactly one timing), and merge preserves it, both the binary combine and
the `Sum` fold over any list of results satisfying it. -/
theorem attempts_invariant :
    BenchmarkResult.default.attemptsInvariant ∧
    (∀ (r : BenchmarkResult) (o : AttemptOutcome) (e : Nat),
      r.attemptsInvariant → (workerStep r o e).attemptsInvariant) ∧
    (∀ a b : BenchmarkResult, a.attemptsInvariant → b.attemptsInvariant →
      (a.add b).attemptsInvariant) ∧
    (∀ l : List BenchmarkResult, (∀ r ∈ l, r.attemptsInvariant) →
      (BenchmarkResult.sum l).attemptsInvariant) := by
  refine ⟨?_, ?_, ?_, ?_⟩
  · simp [BenchmarkResult.attemptsInvariant, BenchmarkResult.default]
  · intro r o e h
    cases o <;>
      simp only [workerStep, BenchmarkResult.attemptsInvariant,
        List.length_append, List.length_cons, List.length_nil] at * <;>
      omega
  · intro a b ha hb
    simp only [BenchmarkResult.attemptsInvariant, BenchmarkResult.add,
      List.length_append] at *
    omega
  · intro l hl
    exact attemptsInvariant_foldl l BenchmarkResult.default (by decide) hl

/-- Witness for Claim C3: one worker step from the default result and a
merge of two concrete invariant-satisfying results. -/
theorem attempts_invariant_witness :
    (workerStep BenchmarkResult.default AttemptOutcome.tcpError 7
      ).attemptsInvariant ∧
    (BenchmarkResult.sum
      [{ success := 1, http_error := 0, tcp_error := 0, elapsed := 9,
         min_time := 9, max_time := 9, timings := [9] },
       { success := 0, http_error := 1, tcp_error := 1, elapsed := 3,
         min_time := 2, max_time := 3, timings := [2, 3] }]
      ).attemptsInvariant :=
  ⟨attempts_invariant.2.1 BenchmarkResult.default
      AttemptOutcome.tcpError 7 (by decide),
   attempts_invariant.2.2.2
      [{ success := 1, http_error := 0, tcp_error := 0, elapsed := 9,
         min_time := 9, max_time := 9, timings := [9] },
       { success := 0, http_error := 1, tcp_error := 1, elapsed := 3,
         min_time := 2, max_time := 3, timings := [2, 3] }]
      (by decide)⟩

/-- Claim C4: `total_request_count` is `success + http_error`, excluding
`tcp_error`; merging an all-success result of count 5 with an
all-tcp-error result of count 3 yields success 5, tcp_error 3 and
total_request_count 5. -/
theorem total_request_count_spec :
    (∀ r : BenchmarkResult,
      r.total_request_count = r.success + r.http_error) ∧
    (∀ r1 r2 : BenchmarkResult,
      r1.success = 5 → r1.http_error = 0 → r1.tcp_error = 0 →
      r2.success = 0 → r2.http_error = 0 → r2.tcp_error = 3 →
      (BenchmarkResult.sum [r1, r2]).success = 5 ∧
      (BenchmarkResult.sum [r1, r2]).tcp_error = 3 ∧
      (BenchmarkResult.sum [r1, r2]).total_request_count = 5) := by
  refine ⟨fun r => rfl, ?_⟩
  intro r1 r2 h1 h2 h3 h4 h5 h6
  refine ⟨?_, ?_, ?_⟩ <;>
    simp [BenchmarkResult.sum, BenchmarkResult.sumCombine,
      BenchmarkResult.default, BenchmarkResult.total_request_count,
      h1, h2, h3, h4, h5, h6]

/-- Witness for Claim C4 at two concrete results. -/
theorem total_request_count_witness :
    (BenchmarkResult.sum
      [{ success := 5, http_error := 0, tcp_error := 0, elapsed := 15,
         min_time := 1, max_time := 5, timings := [1, 2, 3, 4, 5] },
       { success := 0, http_error := 0, tcp_error := 3, elapsed := 16,
         min_time := 3, max_time := 9, timings := [3, 4, 9] }]).success = 5 ∧
    (BenchmarkResult.sum
      [{ success := 5, http_error := 0, tcp_error := 0, elapsed := 15,
         min_time := 1, max_time := 5, timings := [1, 2, 3, 4, 5] },
       { success := 0, http_error := 0, tcp_error := 3, elapsed := 16,
         min_time := 3, max_time := 9, timings := [3, 4, 9] }]).tcp_error = 3 ∧
    (BenchmarkResult.sum
      [{ success := 5, http_error := 0, tcp_error := 0, elapsed := 15,
         min_time := 1, max_time := 5, timings := [1, 2, 3, 4, 5] },
       { success := 0, http_error := 0, tcp_error := 3, elapsed := 16,
         min_time := 3, max_time := 9, timings := [3, 4, 9] }]
      ).total_request_count = 5 :=
  total_request_count_spec.2
    { success := 5, http_error := 0, tcp_error := 0, elapsed := 15,
      min_time := 1, max_time := 5, timings := [1, 2, 3, 4, 5] }
    { success := 0, http_error := 0, tcp_error := 3, elapsed := 16,
      min_time := 3, max_time := 9, timings := [3, 4, 9] }
    rfl rfl rfl rfl rfl rfl

/-- Claim C5: `requests_per_second` is `total_request_count` divided by
the elapsed time in seconds (the reporting layer's
`as_millis / 1000`), and it is 0 whenever `total_request_count` is 0 and
the elapsed time is positive (e.g. every attempt was a tcp error). -/
theorem requests_per_second_spec :
    (∀ r : BenchmarkResult, 0 < r.elapsedMillis →
      r.requests_per_second =
        (r.total_request_count : ℚ) / r.elapsedSeconds) ∧
    (∀ r : BenchmarkResult, r.total_request_count = 0 →
      0 < r.elapsedMillis → r.requests_per_second = 0) := by
  constructor
  · intro r _
    unfold BenchmarkResult.requests_per_second BenchmarkResult.elapsedSeconds
    rw [div_div_eq_mul_div, div_mul_eq_mul_div]
  · intro r h _
    unfold BenchmarkResult.requests_per_second
    rw [h]
    simp

/-- Witness for Claim C5 at a concrete all-tcp-error result with 2 ms of
elapsed time. -/
theorem requests_per_second_witness :
    0 < ({ success := 0, http_error := 0, tcp_error := 4,
           elapsed := 2000000, min_time := 1, max_time := 2,
           timings := [1, 1, 1, 2] } : BenchmarkResult).elapsedMillis ∧
    ({ success := 0, http_error := 0, tcp_error := 4, elapsed := 2000000,
       min_time := 1, max_time := 2,
       timings := [1, 1, 1, 2] } : BenchmarkResult).total_request_count
      = 0 ∧
    ({ success := 0, http_error := 0, tcp_error := 4, elapsed := 2000000,
       min_time := 1, max_time := 2,
       timings := [1, 1, 1, 2] } : BenchmarkResult).requests_per_second
      = 0 :=
  ⟨by decide, rfl,
   requests_per_second_spec.2
     { success := 0, http_error := 0, tcp_error := 4, elapsed := 2000000,
       min_time := 1, max_time := 2, timings := [1, 1, 1, 2] }
     rfl (by decide)⟩

/-- Counterexample to Claim C6 as stated: status 301 is in the 3xx
range, yet the default classifier (`res.status().is_success()`, the 2xx
test) rejects it. -/
theorem default_matcher_rejects_3xx :
    SwarmBuilder.default.expectation_matcher { status := 301 } = false ∧
    300 ≤ 301 ∧ 301 < 400 := by
  refine ⟨?_, by omega, by omega⟩
  decide

/-- Claim C6 (amended): the default response classifier returns true if
and only if the response status code is in the 2xx range (200..=299);
3xx statuses are classified as http errors. -/
theorem default_matcher_iff_2xx (s : Nat) :
    SwarmBuilder.default.expectation_matcher { status := s } = true ↔
    200 ≤ s ∧ s < 300 := by
  simp [SwarmBuilder.default, StatusCode.is_success]

/-- Claim C7: in the result returned by `Swarm::zerg`, `elapsed` is
exactly the driver's wall-clock measurement, while every other field is
exactly that of the `Sum`-merge of the joined per-context results. -/
theorem zerg_elapsed_overwrite (joined : List BenchmarkResult)
    (wall : Nat) :
    (driverFinalize joined wall).elapsed = wall ∧
    (driverFinalize joined wall).success =
      (BenchmarkResult.sum joined).success ∧
    (driverFinalize joined wall).http_error =
      (BenchmarkResult.sum joined).http_error ∧
    (driverFinalize joined wall).tcp_error =
      (BenchmarkResult.sum joined).tcp_error ∧
    (driverFinalize joined wall).min_time =
      (BenchmarkResult.sum joined).min_time ∧
    (driverFinalize joined wall).max_time =
      (BenchmarkResult.sum joined).max_time ∧
    (driverFinalize joined wall).timings =
      (BenchmarkResult.sum joined).timings :=
  ⟨rfl, rfl, rfl, rfl, rfl, rfl, rfl⟩

/-- Claim C9: a URI that fails to parse makes `SwarmBuilder::build`
(and hence `SwarmBuilder::zerg`, for any benchmark run whatsoever)
return that error, so no request is ever issued; and in `Swarm::zerg`
host resolution is the first milestone, happens exactly once, and every
context spawn comes strictly after it. -/
theorem invalid_uri_config_error (b : SwarmBuilder) (e : String)
    (run : Swarm → BenchmarkResult) (s : Swarm) :
    (b.uriSet (Except.error e)).build = Except.error e ∧
    (b.uriSet (Except.error e)).zergWith run = Except.error e ∧
    s.zergEvents.head? = some DriverEvent.resolveHost ∧
    s.zergEvents.count DriverEvent.resolveHost = 1 ∧
    ((List.range s.threads).map DriverEvent.spawnContext).Sublist
      s.zergEvents.tail := by
  refine ⟨rfl, rfl, rfl, ?_, ?_⟩
  · have hmap : ((List.range s.threads).map DriverEvent.spawnContext).count
        DriverEvent.resolveHost = 0 := by
      rw [List.count_eq_zero]
      simp
    simp [Swarm.zergEvents, List.count_append, hmap]
  · show ((List.range s.threads).map DriverEvent.spawnContext).Sublist
      ((List.range s.threads).map DriverEvent.spawnContext ++
        [DriverEvent.startSignal, DriverEvent.sleepRun,
         DriverEvent.stopSignal, DriverEvent.joinMerge])
    exact List.sublist_append_left _ _

lemma sorted_getD_mono {l : List ℚ} (hs : l.Sorted (· ≤ ·))
    {i j : Nat} (hij : i ≤ j) (hj : j < l.length) :
    l.getD i 0 ≤ l.getD j 0 := by
  have hi : i < l.length := lt_of_le_of_lt hij hj
  have h := hs.rel_get_of_le (a := ⟨i, hi⟩) (b := ⟨j, hj⟩) hij
  simpa [List.getD_eq_getElem?_getD, List.getElem?_eq_getElem hi,
    List.getElem?_eq_getElem hj] using h

lemma estimate_quantile_mono (samples : List ℚ) {q1 q2 : ℚ}
    (h : q1 ≤ q2) :
    estimate_quantile samples q1 ≤ estimate_quantile samples q2 := by
  simp only [estimate_quantile]
  rcases Nat.eq_zero_or_pos (samples.insertionSort (· ≤ ·)).length with
    hlen | hlen
  · rw [List.length_eq_zero] at hlen
    simp [hlen]
  · apply sorted_getD_mono (List.sorted_insertionSort _ _)
    · refine min_le_min ?_ le_rfl
      refine Int.toNat_le_toNat (Int.floor_le_floor ?_)
      exact mul_le_mul_of_nonneg_right h (by positivity)
    · exact lt_of_le_of_lt (min_le_right _ _) (Nat.sub_lt hlen Nat.one_pos)

/-- Claim C8: for a completed result with nonempty timings, the
percentile query is monotone in the quantile, and in particular
`percentile 0 ≤ percentile 0.5 ≤ percentile 0.99 ≤ percentile 1`. -/
theorem percentile_monotone (r : BenchmarkResult)
    (hne : r.timings ≠ []) :
    (∀ q1 q2 : ℚ, 0 ≤ q1 → q1 < q2 → q2 ≤ 1 →
      r.percentile q1 ≤ r.percentile q2) ∧
    (r.percentile 0 ≤ r.percentile (1/2) ∧
     r.percentile (1/2) ≤ r.percentile (99/100) ∧
     r.percentile (99/100) ≤ r.percentile 1) := by
  have mono : ∀ q1 q2 : ℚ, q1 ≤ q2 →
      r.percentile q1 ≤ r.percentile q2 := fun q1 q2 h =>
    estimate_quantile_mono _ h
  exact ⟨fun q1 q2 _ h _ => mono q1 q2 (le_of_lt h),
    mono _ _ (by norm_num), mono _ _ (by norm_num),
    mono _ _ (by norm_num)⟩

/-- Witness for Claim C8 at a concrete three-sample result. -/
theorem percentile_monotone_witness :
    ({ success := 3, http_error := 0, tcp_error := 0,
       elapsed := 6000000000, min_time := 1000000000,
       max_time := 3000000000,
       timings := [1000000000, 2000000000, 3000000000] } : BenchmarkResult
      ).timings ≠ [] ∧
    (0 : ℚ) ≤ 0 ∧ (0 : ℚ) < 1 ∧ (1 : ℚ) ≤ 1 ∧
    ({ success := 3, http_error := 0, tcp_error := 0,
       elapsed := 6000000000, min_time := 1000000000,
       max_time := 3000000000,
       timings := [1000000000, 2000000000, 3000000000] } : BenchmarkResult
      ).percentile 0 ≤
    ({ success := 3, http_error := 0, tcp_error := 0,
       elapsed := 6000000000, min_time := 1000000000,
       max_time := 3000000000,
       timings := [1000000000, 2000000000, 3000000000] } : BenchmarkResult
      ).percentile 1 :=
  ⟨by decide, by norm_num, by norm_num, by norm_num,
   (percentile_monotone
     { success := 3, http_error := 0, tcp_error := 0,
       elapsed := 6000000000, min_time := 1000000000,
       max_time := 3000000000,
       timings := [1000000000, 2000000000, 3000000000] }
     (by decide)).1 0 1 (by norm_num) (by norm_num) (by norm_num)⟩

end Zerg
